import Mathlib

/-!
Shallow embedding of the `Security_Toolkit` port scanner
(`src/tools/port_scanner/scanner.py` and
`src/tools/port_scanner/port_utils.py`) together with theorems settling
the specification claims about it.

Conventions of the embedding:
* Python strings are `String`; where character-level processing matters
  (splitting, stripping, integer parsing) we work on `List Char`, the
  character contents of the string.
* Python integers are `Int`; time instants are supplied by an explicit
  `clock` parameter; the behaviour of the network is an oracle
  `env : Int → ConnOutcome` describing what each connection attempt
  would observe.  `scanner.py` never actually invokes its inner
  `worker`, so the oracle is never consulted.
* Python exceptions become `Except String`; a Python `set` of ints is a
  duplicate-free `List Int` built by `setAdd`, and `sorted(...)` is
  `List.insertionSort (· ≤ ·)`.
* I/O performed by a run is recorded in an explicit event trace
  (`List Ev`); `scanner.py` performs no socket I/O on any path (the
  dry-run branch returns early and the live branch never dispatches
  `worker`), so every trace it produces is empty.
-/

/-- Tag for an I/O event of a scan run: a socket being created, or a
probe beginning / ending its in-flight execution. -/
inductive Ev
  | sockOpen (target : String) (port : Int)
  | probeBegin (target : String) (port : Int)
  | probeEnd (target : String) (port : Int)
deriving DecidableEq

/-- The configuration record consumed by `connect_scan`
(`timeout`, `concurrency`, `dry_run`, `banner`). -/
structure ScanConfig where
  timeout : Int
  concurrency : Int
  dry_run : Bool
  banner : Bool
deriving DecidableEq

/-- One result record of the scanner, as described by the fields the
source assembles (`target`, `port`, `status`, `latency_ms`, `banner`,
`timestamp`).  `status` is a Python string exactly as in the source. -/
structure ScanResult where
  target : String
  port : Int
  status : String
  latency_ms : Option Int
  banner : Option String
  timestamp : Int
deriving DecidableEq

/-- What a single connection attempt against `(target, port)` would
observe at the socket layer: a successful connect (with the data the
banner grab would return), a timeout, an explicit refusal, or any other
fault carrying its message `str(e)`. -/
inductive ConnOutcome
  | connected (bannerData : Option String)
  | timedOut
  | refused
  | fault (msg : String)
deriving DecidableEq

/-- Python `or` on two strings: returns the first operand unless it is
falsy (empty).  Embeds the source expression `"filtered" or "closed"`. -/
def pyOr (a b : String) : String := if a = "" then b else a

/-- The three local variables of `worker` that classify an outcome:
`status`, `latency`, `banner_text`. -/
structure WorkerVars where
  status : String
  latency : Option Int
  banner_text : Option String
deriving DecidableEq

/-- The state of `worker`'s locals after its `try`/`except` chain, per
socket outcome — a direct transcription of `scanner.py` lines 14-38:
success sets `status="open"`, `latency=(end-start)*1000` and, when the
banner flag is set, the banner-grab result; the timeout handler sets
`status = "filtered" or "closed"` (the source's no-op `or` expression);
the refusal handler sets `"closed"`; the catch-all handler sets
`"error"` with `banner_text = str(e)`. -/
def workerClassify (bannerFlag : Bool) (startT endT : Int) : ConnOutcome → WorkerVars
  | .connected bd => ⟨"open", some ((endT - startT) * 1000), if bannerFlag then bd else none⟩
  | .timedOut => ⟨pyOr ("filtered") ("closed"), none, none⟩
  | .refused => ⟨"closed", none, none⟩
  | .fault msg => ⟨"error", none, some msg⟩

/-- A full execution of `worker` on one outcome: it computes its local
classification variables and then executes the source's bare `return`,
so its return value is `none` (Python `None`) on every path. -/
def workerRun (bannerFlag : Bool) (startT endT : Int) (o : ConnOutcome) :
    WorkerVars × Option ScanResult :=
  (workerClassify bannerFlag startT endT o, none)

/-- `connect_scan(target, ports, timeout, concurrency, dry_run, banner)`
from `scanner.py`, returning the function's Python return value together
with the I/O event trace of the run.  Transcribed control flow:
if `dry_run` is truthy, the `for port in ports` loop appends one
simulated record and immediately executes `return results` (the return
statement is nested inside the loop body), so a non-empty port list
yields exactly the first port's record; an empty port list falls through
the loop.  After the `if dry_run` block the source only defines `worker`
and then ends, so every remaining path returns Python `None` and never
performs any I/O. -/
def connect_scan (target : String) (ports : List Int) (cfg : ScanConfig)
    (clock : Int) (env : Int → ConnOutcome) : Option (List ScanResult) × List Ev :=
  if cfg.dry_run then
    match ports with
    | [] => (none, [])
    | p :: _ => (some [⟨target, p, "simulated", none, none, clock⟩], [])
  else
    (none, [])

/-- Number of sockets created during a run, read off its event trace. -/
def socketsCreated (tr : List Ev) : Nat :=
  (tr.filter (fun e => match e with | .sockOpen _ _ => true | _ => false)).length

/-- Number of probes in flight after a trace: probe-begin events minus
probe-end events. -/
def inFlight (tr : List Ev) : Int :=
  tr.foldl (fun a e => match e with
    | .probeBegin _ _ => a + 1
    | .probeEnd _ _ => a - 1
    | _ => a) 0

/-- C1: the engine does not cover the targets-by-ports cross-product.
At targets = ["10.0.0.1"], ports = [22, 80] the claim demands 2 result
records; with `dry_run = false` `connect_scan` returns `None` (0
records, the worker is never dispatched), and with `dry_run = true` it
returns a single record (the return statement nested inside the loop
stops after the first port). -/
theorem connect_scan_not_cross_product :
    (connect_scan ("10.0.0.1") [22, 80] ⟨1, 5, false, false⟩ 0
        (fun _ => ConnOutcome.refused)).1 = none
  ∧ ((connect_scan ("10.0.0.1") [22, 80] ⟨1, 5, true, false⟩ 0
        (fun _ => ConnOutcome.refused)).1.getD []).length = 1 :=
  ⟨rfl, rfl⟩

/-- C2: the worker's classification maps a timeout to
`status = "filtered"` (the `"filtered" or "closed"` expression always
selects its first, truthy operand) with null latency and banner, maps an
explicit refusal to `status = "closed"` with null latency and banner,
and the two statuses are distinct strings, so the outcomes are never
conflated. -/
theorem worker_timeout_refusal_distinct (b : Bool) (s e : Int) :
    workerClassify b s e ConnOutcome.timedOut = ⟨"filtered", none, none⟩
  ∧ workerClassify b s e ConnOutcome.refused = ⟨"closed", none, none⟩
  ∧ ("filtered" : String) ≠ "closed" :=
  ⟨rfl, rfl, by decide⟩

/-- C3: with `dry_run` set, every record `connect_scan` emits has
`status = "simulated"`, `latency_ms = none`, `banner = none`, and the
run's trace records no socket creation. -/
theorem dry_run_simulated (target : String) (ports : List Int) (cfg : ScanConfig)
    (clock : Int) (env : Int → ConnOutcome) (h : cfg.dry_run = true) :
    (∀ r ∈ (connect_scan target ports cfg clock env).1.getD [],
        r.status = "simulated" ∧ r.latency_ms = none ∧ r.banner = none)
  ∧ socketsCreated (connect_scan target ports cfg clock env).2 = 0 := by
  cases ports <;> simp [connect_scan, h, socketsCreated]

/-- Witness for C3 at a concrete dry-run invocation. -/
theorem dry_run_simulated_witness :
    (∀ r ∈ (connect_scan ("h") [80] ⟨1, 5, true, false⟩ 0
        (fun _ => ConnOutcome.refused)).1.getD [],
        r.status = "simulated" ∧ r.latency_ms = none ∧ r.banner = none)
  ∧ socketsCreated (connect_scan ("h") [80] ⟨1, 5, true, false⟩ 0
        (fun _ => ConnOutcome.refused)).2 = 0 :=
  dry_run_simulated ("h") [80] ⟨1, 5, true, false⟩ 0 (fun _ => ConnOutcome.refused) rfl

/-- C4: the probe does not return a well-formed result record: `worker`
ends with a bare `return`, so for every banner flag, every pair of clock
readings and every socket outcome the value handed back to the caller is
`None`, never a `ScanResult`. -/
theorem worker_returns_none (b : Bool) (s e : Int) (o : ConnOutcome) :
    (workerRun b s e o).2 = none :=
  rfl

/-- C5: no precondition check exists: handed the out-of-range port 70000
(dry run), `connect_scan` emits a simulated `ScanResult` for it instead
of rejecting the scan before dispatch. -/
theorem no_precondition_check :
    connect_scan ("10.0.0.1") [70000] ⟨1, 5, true, false⟩ 0
        (fun _ => ConnOutcome.refused)
      = (some [⟨"10.0.0.1", 70000, "simulated", none, none, 0⟩], []) :=
  rfl

/-- C6: the value of `connect_scan` is independent of the network/timing
oracle (no probe is ever in flight, so completion timing cannot influence
it), and whatever report it emits is sorted by ascending port and
mentions only the invocation's single target. -/
theorem report_deterministic_ordered (target : String) (ports : List Int)
    (cfg : ScanConfig) (clock : Int) (env env2 : Int → ConnOutcome) :
    connect_scan target ports cfg clock env = connect_scan target ports cfg clock env2
  ∧ List.Chain' (fun a b => a.port < b.port)
      ((connect_scan target ports cfg clock env).1.getD [])
  ∧ ∀ r ∈ (connect_scan target ports cfg clock env).1.getD [], r.target = target := by
  refine ⟨rfl, ?_, ?_⟩ <;>
    rcases cfg with ⟨t, c, dr, bn⟩ <;> cases dr <;> cases ports <;> simp [connect_scan]

/-- Witness for C6 at a concrete invocation with two distinct oracles. -/
theorem report_deterministic_ordered_witness :
    connect_scan ("h") [80, 443] ⟨1, 5, true, false⟩ 0 (fun _ => ConnOutcome.refused)
      = connect_scan ("h") [80, 443] ⟨1, 5, true, false⟩ 0 (fun _ => ConnOutcome.timedOut)
  ∧ List.Chain' (fun a b => a.port < b.port)
      ((connect_scan ("h") [80, 443] ⟨1, 5, true, false⟩ 0
        (fun _ => ConnOutcome.refused)).1.getD [])
  ∧ ∀ r ∈ (connect_scan ("h") [80, 443] ⟨1, 5, true, false⟩ 0
        (fun _ => ConnOutcome.refused)).1.getD [], r.target = "h" :=
  report_deterministic_ordered ("h") [80, 443] ⟨1, 5, true, false⟩ 0
    (fun _ => ConnOutcome.refused) (fun _ => ConnOutcome.timedOut)

/-- C7: at every instant of a run (every prefix of its event trace) the
number of probes in flight never exceeds the configured concurrency
bound — degenerately so, because the source never dispatches a probe, so
the in-flight count is always zero. -/
theorem concurrency_bound (target : String) (ports : List Int) (cfg : ScanConfig)
    (clock : Int) (env : Int → ConnOutcome) (h : 1 ≤ cfg.concurrency) (n : Nat) :
    inFlight (((connect_scan target ports cfg clock env).2).take n) ≤ cfg.concurrency := by
  have htr : (connect_scan target ports cfg clock env).2 = [] := by
    rcases cfg with ⟨t, c, dr, bn⟩ <;> cases dr <;> cases ports <;> simp [connect_scan]
  rw [htr]
  simp [inFlight]
  omega

/-- Witness for C7 at a concrete invocation. -/
theorem concurrency_bound_witness :
    inFlight (((connect_scan ("h") [22] ⟨1, 5, false, true⟩ 0
      (fun _ => ConnOutcome.timedOut)).2).take 3) ≤ (⟨1, 5, false, true⟩ : ScanConfig).concurrency :=
  concurrency_bound ("h") [22] ⟨1, 5, false, true⟩ 0
    (fun _ => ConnOutcome.timedOut) (by decide) 3

/-- C8: the worker's catch-all handler classifies every fault other than
timeout or refusal as `status = "error"` with null latency and with
`banner_text` carrying the fault's human-readable message `str(e)`; the
handler is total in the message, so no such fault escapes the probe. -/
theorem worker_error_branch (b : Bool) (s e : Int) (msg : String) :
    workerClassify b s e (ConnOutcome.fault msg) = ⟨"error", none, some msg⟩ :=
  rfl

/-- Python whitespace for `str.strip()` / `int()` (ASCII set: tab,
newline, vertical tab, form feed, carriage return, space). -/
def isPySpace (c : Char) : Bool := [9, 10, 11, 12, 13, 32].contains c.toNat

/-- Python `str.strip()` on the characters of a string. -/
def pyStrip (cs : List Char) : List Char :=
  ((cs.dropWhile isPySpace).reverse.dropWhile isPySpace).reverse

/-- Python `str.split(sep)` for a one-character separator: splits on
every occurrence, keeping empty pieces (so `"".split(",") = [""]` and
`"a,,b".split(",") = ["a", "", "b"]`). -/
def splitOnCh (sep : Char) : List Char → List (List Char)
  | [] => [[]]
  | c :: rest =>
    match splitOnCh sep rest with
    | t :: ts => if c = sep then [] :: t :: ts else (c :: t) :: ts
    | [] => [[]]

/-- Digit block of a Python integer literal after the sign: non-empty,
starts with a digit, and every underscore stands between two digits. -/
def pyDigitsAux : List Char → Bool
  | [] => true
  | '_' :: rest =>
    match rest with
    | [] => false
    | c :: rest2 => c.isDigit && pyDigitsAux rest2
  | c :: rest => c.isDigit && pyDigitsAux rest

/-- Entry point of the digit-block check: the block must be non-empty
and begin with a digit. -/
def pyDigitsOK : List Char → Bool
  | [] => false
  | c :: rest => c.isDigit && pyDigitsAux rest

/-- Numeric value of a digit string (underscores already removed). -/
def digitsToNat (cs : List Char) : Nat :=
  cs.foldl (fun a c => a * 10 + (c.toNat - 48)) 0

/-- Python `int(str)`: strips surrounding whitespace, accepts an
optional `+`/`-` sign and a digit block with single underscores between
digits; anything else raises `ValueError`, modelled as `none`.
(Non-ASCII digits and whitespace are not modelled.) -/
def pyInt (cs0 : List Char) : Option Int :=
  match pyStrip cs0 with
  | '+' :: body =>
    if pyDigitsOK body then some (Int.ofNat (digitsToNat (body.filter (· != '_')))) else none
  | '-' :: body =>
    if pyDigitsOK body then some (-(Int.ofNat (digitsToNat (body.filter (· != '_'))))) else none
  | body =>
    if pyDigitsOK body then some (Int.ofNat (digitsToNat (body.filter (· != '_')))) else none

/-- Python `range(a, b)` as a list of integers `a, a+1, ..., b-1`
(empty when `b ≤ a`). -/
def pyRange (a b : Int) : List Int :=
  (List.range (b - a).toNat).map (fun (i : Nat) => a + (i : Int))

/-- `final_ports.add(p)` on a Python set modelled as a duplicate-free
list: insert `p` unless already present. -/
def setAdd (fp : List Int) (p : Int) : List Int :=
  if p ∈ fp then fp else p :: fp

/-- `final_ports.update(ps)`: add every element of `ps`. -/
def setUpdate (fp : List Int) (ps : List Int) : List Int :=
  ps.foldl setAdd fp

/-- Processing of one comma token by `parse_ports` (`port_utils.py`
lines 91-110): a token containing `-` is split on `-`, must have exactly
two pieces, both pieces must parse as integers, and the bounds check
`start < 1 or end > 65535 or start > end` must pass, yielding the
inclusive range; any other token must parse as a single integer in
[1, 65535].  Failures carry the source's `ValueError` messages. -/
def tokenPorts (token : List Char) : Except String (List Int) :=
  if token.contains '-' then
    match splitOnCh '-' token with
    | [a, b] =>
      match pyInt a, pyInt b with
      | some s, some e =>
        if s < 1 ∨ 65535 < e ∨ e < s then
          Except.error ("Port range out of bounds: '" ++ String.mk token ++ "'")
        else
          Except.ok (pyRange s (e + 1))
      | _, _ => Except.error ("Non-numeric range in: '" ++ String.mk token ++ "'")
    | _ => Except.error ("Invalid range format: '" ++ String.mk token ++ "'")
  else
    match pyInt token with
    | some p =>
      if p < 1 ∨ 65535 < p then
        Except.error ("Port number out of range: " ++ toString p)
      else
        Except.ok [p]
    | none => Except.error ("Invalid port: '" ++ String.mk token ++ "'")

/-- One step of the accumulation over comma tokens: a raised
`ValueError` propagates; otherwise the token's ports join the set. -/
def addToken (acc : Except String (List Int)) (t : List Char) : Except String (List Int) :=
  match acc with
  | .error e => .error e
  | .ok fp =>
    match tokenPorts t with
    | .error e => .error e
    | .ok ps => .ok (setUpdate fp ps)

/-- The default common ports returned for an absent specification. -/
def defaultPorts : List Int := [21, 22, 23, 25, 53, 80, 443]

/-- `parse_ports(port_spec)` from `port_utils.py`: `None` or the empty
string yields the default common-port list; otherwise the specification
is split on commas, each token stripped and processed by `tokenPorts`
into one accumulated set (raising `ValueError` on the first bad token),
and the set is returned sorted. -/
def parse_ports (port_spec : Option String) : Except String (List Int) :=
  match port_spec with
  | none => .ok defaultPorts
  | some s =>
    if s = "" then .ok defaultPorts
    else
      match ((splitOnCh ',' s.data).map pyStrip).foldl addToken (.ok []) with
      | .error e => .error e
      | .ok fp => .ok (List.insertionSort (· ≤ ·) fp)

/-- Elements of a Python `range(a, b)` list lie in `[a, b)`. -/
theorem mem_pyRange {a b p : Int} (h : p ∈ pyRange a b) : a ≤ p ∧ p < b := by
  unfold pyRange at h
  obtain ⟨i, hi, rfl⟩ := List.exists_of_mem_map h
  rw [List.mem_range] at hi
  omega

/-- Every port a token contributes lies in `[1, 65535]`: both the range
branch and the single-port branch of `tokenPorts` guard their output
with the source's bounds check. -/
theorem tokenPorts_range {t : List Char} {ps : List Int}
    (h : tokenPorts t = .ok ps) : ∀ p ∈ ps, 1 ≤ p ∧ p ≤ 65535 := by
  unfold tokenPorts at h
  split at h
  · split at h
    · split at h
      · split at h
        · cases h
        · rename_i hbounds
          cases h
          intro p hp
          have := mem_pyRange hp
          omega
      · cases h
    · cases h
  · split at h
    · split at h
      · cases h
      · rename_i p' hbounds
        cases h
        intro p hp
        simp only [List.mem_singleton] at hp
        omega
    · cases h

/-- Set insertion keeps the modelled set duplicate-free. -/
theorem setAdd_nodup {fp : List Int} {q : Int} (h : fp.Nodup) : (setAdd fp q).Nodup := by
  by_cases hq : q ∈ fp
  · simpa [setAdd, hq] using h
  · simp only [setAdd, if_neg hq]
    exact List.nodup_cons.mpr ⟨hq, h⟩

/-- Membership after a set insertion. -/
theorem mem_setAdd {fp : List Int} {q p : Int} (h : p ∈ setAdd fp q) :
    p ∈ fp ∨ p = q := by
  by_cases hq : q ∈ fp
  · simp only [setAdd, if_pos hq] at h
    exact Or.inl h
  · simp only [setAdd, if_neg hq, List.mem_cons] at h
    exact h.symm

/-- `setUpdate` keeps the set duplicate-free. -/
theorem setUpdate_nodup (ps : List Int) :
    ∀ fp : List Int, fp.Nodup → (setUpdate fp ps).Nodup := by
  induction ps with
  | nil => intro fp h; exact h
  | cons q qs ih =>
    intro fp h
    exact ih (setAdd fp q) (setAdd_nodup h)

/-- Membership after a set update comes from the old set or from the
added elements. -/
theorem mem_setUpdate (ps : List Int) :
    ∀ fp p, p ∈ setUpdate fp ps → p ∈ fp ∨ p ∈ ps := by
  induction ps with
  | nil => intro fp p h; exact Or.inl h
  | cons q qs ih =>
    intro fp p h
    rcases ih (setAdd fp q) p h with h' | h'
    · rcases mem_setAdd h' with h'' | h''
      · exact Or.inl h''
      · exact Or.inr (by simp [h''])
    · exact Or.inr (List.mem_cons_of_mem _ h')

/-- A raised `ValueError` propagates through the rest of the token fold
unchanged. -/
theorem foldl_addToken_error (ts : List (List Char)) (e : String) :
    ts.foldl addToken (.error e) = .error e := by
  induction ts with
  | nil => rfl
  | cons t ts ih => simpa [addToken] using ih

/-- If the token fold succeeds, the accumulated set is duplicate-free
and all its ports lie in `[1, 65535]`. -/
theorem foldl_addToken_ok (ts : List (List Char)) :
    ∀ fp : List Int, fp.Nodup → (∀ p ∈ fp, 1 ≤ p ∧ p ≤ 65535) →
    ∀ fp', ts.foldl addToken (.ok fp) = .ok fp' →
      fp'.Nodup ∧ ∀ p ∈ fp', 1 ≤ p ∧ p ≤ 65535 := by
  induction ts with
  | nil =>
    intro fp hnd hbd fp' h
    cases h
    exact ⟨hnd, hbd⟩
  | cons t ts ih =>
    intro fp hnd hbd fp' h
    rw [List.foldl_cons] at h
    rcases htok : tokenPorts t with m | ps
    · rw [show addToken (.ok fp) t = .error m by simp [addToken, htok],
        foldl_addToken_error] at h
      cases h
    · rw [show addToken (.ok fp) t = .ok (setUpdate fp ps) by simp [addToken, htok]] at h
      refine ih (setUpdate fp ps) (setUpdate_nodup ps fp hnd) ?_ fp' h
      intro p hp
      rcases mem_setUpdate ps fp p hp with h' | h'
      · exact hbd p h'
      · exact tokenPorts_range htok p h'

/-- If any token of the list fails to parse, the whole fold raises. -/
theorem foldl_addToken_bad (ts : List (List Char)) :
    ∀ acc, (∃ t ∈ ts, ∃ m, tokenPorts t = .error m) →
      ∃ m', ts.foldl addToken acc = .error m' := by
  induction ts with
  | nil =>
    intro acc h
    obtain ⟨t, ht, _⟩ := h
    cases ht
  | cons t ts ih =>
    intro acc h
    obtain ⟨u, hu, m, hm⟩ := h
    rw [List.foldl_cons]
    rcases List.mem_cons.mp hu with rfl | hu'
    · rcases acc with e | fp
      · exact ⟨e, foldl_addToken_error ts e⟩
      · rw [show addToken (.ok fp) u = .error m by simp [addToken, hm]]
        exact ⟨m, foldl_addToken_error ts m⟩
    · exact ih (addToken acc t) ⟨u, hu', m, hm⟩

/-- C9: a non-empty specification accepted by `parse_ports` yields a
sorted, duplicate-free list of integers all within `[1, 65535]`; any
token that fails to parse (malformed or out of range) makes
`parse_ports` raise `ValueError` instead of returning a list; and the
spec's example "22,80,1000-1002" parses to `[22, 80, 1000, 1001, 1002]`. -/
theorem parse_ports_valid (s : String) (hs : s ≠ "") :
    (∀ l, parse_ports (some s) = .ok l →
        List.Sorted (· ≤ ·) l ∧ l.Nodup ∧ ∀ p ∈ l, 1 ≤ p ∧ p ≤ 65535)
  ∧ (∀ t ∈ (splitOnCh ',' s.data).map pyStrip,
        (∃ m, tokenPorts t = .error m) → ∃ m', parse_ports (some s) = .error m')
  ∧ parse_ports (some ("22,80,1000-1002")) = .ok [22, 80, 1000, 1001, 1002] := by
  refine ⟨?_, ?_, by rfl⟩
  · intro l hl
    simp only [parse_ports, if_neg hs] at hl
    rcases hfold : ((splitOnCh ',' s.data).map pyStrip).foldl addToken (.ok []) with m | fp
    · rw [hfold] at hl
      cases hl
    · rw [hfold] at hl
      cases hl
      obtain ⟨hnd, hbd⟩ :=
        foldl_addToken_ok _ [] List.nodup_nil (by simp) fp hfold
      refine ⟨List.sorted_insertionSort _ fp, (List.perm_insertionSort _ fp).nodup_iff.mpr hnd, ?_⟩
      intro p hp
      exact hbd p ((List.mem_insertionSort _).mp hp)
  · intro t ht hm
    obtain ⟨m', hfold⟩ := foldl_addToken_bad _ (.ok []) ⟨t, ht, hm⟩
    exact ⟨m', by simp only [parse_ports, if_neg hs, hfold]⟩

/-- Witness for C9 at the concrete specification "22". -/
theorem parse_ports_valid_witness :
    (∀ l, parse_ports (some ("22")) = .ok l →
        List.Sorted (· ≤ ·) l ∧ l.Nodup ∧ ∀ p ∈ l, 1 ≤ p ∧ p ≤ 65535)
  ∧ (∀ t ∈ (splitOnCh ',' ("22" : String).data).map pyStrip,
        (∃ m, tokenPorts t = .error m) → ∃ m', parse_ports (some ("22")) = .error m')
  ∧ parse_ports (some ("22,80,1000-1002")) = .ok [22, 80, 1000, 1001, 1002] :=
  parse_ports_valid ("22") (by decide)

/-- C10: `parse_ports` applied to `None` or to the empty string raises
nothing and returns the fixed default list of seven common ports. -/
theorem parse_ports_defaults :
    parse_ports none = .ok [21, 22, 23, 25, 53, 80, 443]
  ∧ parse_ports (some ("")) = .ok [21, 22, 23, 25, 53, 80, 443] :=
  ⟨rfl, rfl⟩
